import Mathlib

/-!
Verification of the cinerate-user-service resilient data-access layer:
the retrying database executor, the circuit breaker wrapping it, the
read-through cache discipline of the user controller, and the user
record store, embedded shallowly from the JavaScript source.
-/

namespace CinerateUserService

/-! ## Retrying operation executor

From src/src/config/circuit-breaker.js: the wrapped operation is run
through a retry loop; connection-class errors are rethrown (retried),
all other errors bail immediately.  An action is embedded as a function
from the invocation index to the outcome of that invocation. -/

/-- Outcome of one invocation of a database action: a value, or a
thrown error identified by its name. -/
inductive DbOutcome where
  | ok (v : Nat)
  | err (name : String)
deriving DecidableEq

/-- From circuit-breaker.js lines 45-49: the four error names classified
as connection errors, which are retried; every other name bails. -/
def isConnectionError (n : String) : Bool :=
  n == "SequelizeConnectionError" ||
  n == "SequelizeConnectionRefusedError" ||
  n == "SequelizeHostNotFoundError" ||
  n == "SequelizeConnectionTimedOutError"

/-- Retry options, as passed to the retry library in circuit-breaker.js. -/
structure RetryOptions where
  retries : Nat
  minTimeout : Nat
  maxTimeout : Nat
  factor : Nat
deriving DecidableEq

/-- From circuit-breaker.js lines 54-58: retries 5, minTimeout 1000,
maxTimeout 8000, factor 2. -/
def dbRetryOptions : RetryOptions :=
  { retries := 5, minTimeout := 1000, maxTimeout := 8000, factor := 2 }

/-- Modelled from the spec: the retry loop of the external async-retry
library, which is not part of this repository.  The action runs; on
success its value is returned; on a retryable failure it is rerun while
retry budget remains; a bail rejects at once.  The classification of
each failure is the in-repo handler of circuit-breaker.js lines 43-52.
Returns the final result together with the number of invocations. -/
def retryGo (action : Nat → DbOutcome) : Nat → Nat → Except String Nat × Nat
  | remaining, k =>
    match action k with
    | .ok v => (Except.ok v, k + 1)
    | .err n =>
      if isConnectionError n then
        match remaining with
        | 0 => (Except.error n, k + 1)
        | r + 1 => retryGo action r (k + 1)
      else
        (Except.error n, k + 1)

/-- Run an action through the retry executor with the given options. -/
def retryRun (action : Nat → DbOutcome) (opts : RetryOptions) :
    Except String Nat × Nat :=
  retryGo action opts.retries 0

/-! ## Circuit breaker

The breaker machinery is the external opossum library; the repository
configures it (dbCircuitOptions), wires its event listeners to the
state gauge, and initialises the gauge (circuit-breaker.js 75-91). -/

/-- Breaker states, from the spec state machine. -/
inductive BState where
  | Closed
  | Open
  | HalfOpen
deriving DecidableEq

/-- Gauge value set for each state by the event listeners in
circuit-breaker.js: close sets 1, halfOpen sets 0.5, open sets 0. -/
def stateGaugeValue : BState → ℚ
  | .Closed => 1
  | .HalfOpen => 1 / 2
  | .Open => 0

/-- Options passed to the breaker constructor. -/
structure CircuitOptions where
  failureThreshold : Nat
  resetTimeout : Nat
  timeout : Nat
  errorThresholdPercentage : Nat
  rollingCountTimeout : Nat
deriving DecidableEq

/-- From circuit-breaker.js lines 20-26. -/
def dbCircuitOptions : CircuitOptions :=
  { failureThreshold := 50, resetTimeout := 30000, timeout := 10000,
    errorThresholdPercentage := 50, rollingCountTimeout := 60000 }

/-- Breaker instance state: machine state, rolling window statistics,
and the last value written to the state gauge metric. -/
structure Breaker where
  state : BState
  windowFailures : Nat
  windowSuccesses : Nat
  gauge : ℚ
deriving DecidableEq

/-- From circuit-breaker.js line 90: the gauge is initialised to 1
(Closed) when the breaker is created; the breaker starts Closed with an
empty rolling window. -/
def createDatabaseCircuitBreaker : Breaker :=
  { state := .Closed, windowFailures := 0, windowSuccesses := 0, gauge := 1 }

/-- Events driving breaker transitions: completion of a guarded call
(failed or not), or expiry of the reset timeout while Open. -/
inductive BreakerInput where
  | callResult (failed : Bool)
  | resetTimeoutElapsed
deriving DecidableEq

/-- Modelled from the spec: the Closed to Open trigger of the external
opossum breaker - the rolling failure rate reaches the configured error
percentage and at least one failure was seen. -/
def overThreshold (opts : CircuitOptions) (f s : Nat) : Bool :=
  decide (opts.errorThresholdPercentage * (f + s) ≤ 100 * f) && decide (0 < f)

/-- Modelled from the spec: the opossum breaker state machine.  Closed
to Open when the rolling failure rate trips the threshold; Open to
HalfOpen when the reset timeout elapses; HalfOpen to Closed on a trial
success and back to Open on a trial failure.  Each transition runs the
corresponding in-repo event listener (circuit-breaker.js 75-88), which
writes the gauge. -/
def breakerStep (opts : CircuitOptions) (b : Breaker) (i : BreakerInput) : Breaker :=
  match b.state, i with
  | .Closed, .callResult failed =>
    if failed then
      let f := b.windowFailures + 1
      if overThreshold opts f b.windowSuccesses then
        { state := .Open, windowFailures := f,
          windowSuccesses := b.windowSuccesses, gauge := 0 }
      else
        { b with windowFailures := f }
    else
      { b with windowSuccesses := b.windowSuccesses + 1 }
  | .Open, .resetTimeoutElapsed =>
    { b with state := .HalfOpen, gauge := 1 / 2 }
  | .HalfOpen, .callResult failed =>
    if failed then
      { b with state := .Open, gauge := 0 }
    else
      { state := .Closed, windowFailures := 0, windowSuccesses := 0, gauge := 1 }
  | _, _ => b

deriving instance DecidableEq for Except

/-- Result of one breaker-guarded call: the payload or error, how many
times the underlying store action was invoked, and the breaker after
the call. -/
structure FireResult where
  result : Except String Nat
  invocations : Nat
  breaker : Breaker
deriving DecidableEq

/-- Modelled from the spec: opossum fire.  When the breaker is Open the
call is rejected at once with the open-circuit error and the wrapped
retrying executor never runs; otherwise the action goes through the
in-repo retry executor and the outcome feeds the breaker statistics. -/
def fire (opts : CircuitOptions) (b : Breaker) (action : Nat → DbOutcome) : FireResult :=
  match b.state with
  | .Open => { result := Except.error "CircuitOpenError", invocations := 0, breaker := b }
  | _ =>
    let r := retryRun action dbRetryOptions
    let failed := match r.1 with
      | .ok _ => false
      | .error _ => true
    { result := r.1, invocations := r.2,
      breaker := breakerStep opts b (.callResult failed) }

/-! ## Record store

From src/src/models/mock-user.model.js: the in-memory user store used
by the service in mock mode - an array of user records plus an
auto-increment id counter. -/

/-- A user record: id, email, stored password hash, display name
(user.model.js / mock-user.model.js). -/
structure UserRec where
  id : Nat
  email : String
  password : String
  name : String
deriving DecidableEq

/-- The mock record store state: the mockUsers array and the
mockUserId auto-increment counter. -/
structure Store where
  mockUsers : List UserRec
  mockUserId : Nat
deriving DecidableEq

/-- findByPk from mock-user.model.js: first record whose id matches. -/
def Store.findByPk (st : Store) (id : Nat) : Option UserRec :=
  st.mockUsers.find? (fun u => u.id == id)

/-- findOne with an email query from mock-user.model.js. -/
def Store.findOneByEmail (st : Store) (email : String) : Option UserRec :=
  st.mockUsers.find? (fun u => u.email == email)

/-- create from mock-user.model.js lines 77-81: append the record with
the next id and bump the counter; no uniqueness check is performed. -/
def Store.create (st : Store) (email password nm : String) : UserRec × Store :=
  let newUser : UserRec := { id := st.mockUserId, email := email, password := password, name := nm }
  (newUser, { mockUsers := st.mockUsers ++ [newUser], mockUserId := st.mockUserId + 1 })

/-- Replace the element at an index, leaving the list unchanged when
the index is out of range. -/
def listModifyAt (l : List UserRec) (i : Nat) (f : UserRec → UserRec) : List UserRec :=
  match l, i with
  | [], _ => []
  | x :: xs, 0 => f x :: xs
  | x :: xs, j + 1 => x :: listModifyAt xs j f

/-- update from mock-user.model.js lines 82-89: find the record by id,
merge the patch over it and report 1 row affected, or report 0 rows
and leave the store unchanged. -/
def Store.update (st : Store) (nm email : String) (id : Nat) : Nat × Store :=
  match st.mockUsers.findIdx? (fun u => u.id == id) with
  | some i =>
    (1, { st with mockUsers :=
      listModifyAt st.mockUsers i (fun u => { u with name := nm, email := email }) })
  | none => (0, st)

/-- save attached to fetched records in mock-user.model.js: write the
record back over the stored record with the same id. -/
def Store.save (st : Store) (u : UserRec) : Store :=
  match st.mockUsers.findIdx? (fun x => x.id == u.id) with
  | some i => { st with mockUsers := listModifyAt st.mockUsers i (fun _ => u) }
  | none => st

/-- Modelled from the spec: the production record store enforces email
uniqueness.  The declaration is in src (user.model.js: email has
unique true) but the enforcing engine is the external database, so
create failing with the duplicate-key classification
SequelizeUniqueConstraintError when the email already exists is taken
from the spec contract for the Record Store. -/
def Store.dbCreate (st : Store) (email password nm : String) :
    Except String (UserRec × Store) :=
  if st.mockUsers.any (fun u => u.email == email) then
    Except.error "SequelizeUniqueConstraintError"
  else
    Except.ok (st.create email password nm)

/-! ## Read-through cache

createCacheMiddleware (src/src/middleware/cache.middleware.js) builds
a RedisCache with prefix user-service: and default ttl 3600.  The
RedisCache utility itself (src/utils/redis-cache.js) is not part of
the sources here, so its get/set/del behaviour is modelled from the
spec contract of section 4.3. -/

/-- One cache entry: full key, serialized value, ttl in seconds. -/
structure CacheEntry where
  key : String
  value : String
  ttl : Nat
deriving DecidableEq

/-- The cache contents. -/
structure Cache where
  entries : List CacheEntry
deriving DecidableEq

/-- From cache.middleware.js line 9: the fixed service namespace put in
front of every key. -/
def serviceNamespace : String := "user-service:"

/-- From cache.middleware.js line 10: ttl used when a set gives no
per-call ttl. -/
def defaultCacheTtl : Nat := 3600

/-- Modelled from the spec: set stores the value under the namespaced
key with the per-call ttl, or the default ttl 3600 when none is
given. -/
def Cache.setWithTtl (c : Cache) (key value : String) (ttl : Option Nat) : Cache :=
  { entries :=
      { key := serviceNamespace ++ key, value := value, ttl := ttl.getD defaultCacheTtl } ::
      c.entries.filter (fun e => e.key != serviceNamespace ++ key) }

/-- Modelled from the spec: get returns the value stored under the
namespaced key, when present. -/
def Cache.get (c : Cache) (key : String) : Option String :=
  (c.entries.find? (fun e => e.key == serviceNamespace ++ key)).map (fun e => e.value)

/-- Modelled from the spec: invalidate removes the namespaced key. -/
def Cache.del (c : Cache) (key : String) : Cache :=
  { entries := c.entries.filter (fun e => e.key != serviceNamespace ++ key) }

/-! ## User controller

From src/src/controllers/user.controller.js.  Password hashing is the
external bcrypt collaborator. -/

/-- Modelled from the spec: opaque password hashing collaborator,
embedded as an injective tagging function. -/
def bcryptHash (p : String) : String := "bcrypt$" ++ p

/-- Modelled from the spec: the hash comparison collaborator - the
stored hash matches exactly the hash of the given password. -/
def bcryptCompare (p h : String) : Bool := h == bcryptHash p

/-- An HTTP-style response: status code and body payload. -/
structure Response where
  status : Nat
  body : String
deriving DecidableEq

/-- getUserById (user.controller.js 22-34).  The result of firing the
guarded findByPk is passed in as dbResult; when the breaker is Open the
fire call rejects instead and the generic catch answers 500. -/
def getUserById (b : Breaker) (dbResult : Except String (Option UserRec))
    (userId : Option Nat) : Response :=
  match userId with
  | none => { status := 400, body := "No user ID provided" }
  | some _ =>
    match (match b.state with
           | .Open => Except.error "CircuitOpenError"
           | _ => dbResult) with
    | .error _ => { status := 500, body := "Internal server error" }
    | .ok none => { status := 404, body := "User not found" }
    | .ok (some u) => { status := 200, body := "name=" ++ u.name ++ ";email=" ++ u.email }

/-- updateUser (user.controller.js 39-64): fire the guarded update;
zero rows affected answers 404 and touches nothing else; otherwise the
cache key of the user is invalidated and 200 returned.  An Open
breaker rejects the fire and the catch answers 500. -/
def updateUser (b : Breaker) (st : Store) (c : Cache) (userId : Nat)
    (nm email : String) : Response × Store × Cache :=
  match b.state with
  | .Open => ({ status := 500, body := "Internal server error" }, st, c)
  | _ =>
    let r := st.update nm email userId
    if r.1 == 0 then
      ({ status := 404, body := "User not found" }, r.2, c)
    else
      ({ status := 200, body := "User updated" }, r.2, c.del (toString userId))

/-- changePassword (user.controller.js 69-94): fetch the user, compare
the old password against the stored hash, and only on a match hash the
new password and save it.  No cache operation appears on this path. -/
def changePassword (b : Breaker) (st : Store) (c : Cache) (userId : Nat)
    (oldPassword newPassword : String) : Response × Store × Cache :=
  match b.state with
  | .Open => ({ status := 500, body := "Internal server error" }, st, c)
  | _ =>
    match st.findByPk userId with
    | none => ({ status := 404, body := "User not found" }, st, c)
    | some user =>
      if bcryptCompare oldPassword user.password then
        let st2 := st.save { user with password := bcryptHash newPassword }
        ({ status := 200, body := "Password changed" }, st2, c)
      else
        ({ status := 400, body := "Invalid credentials" }, st, c)

/-- signup (user.controller.js 99-117): hash the password and fire the
guarded create; a SequelizeUniqueConstraintError answers 400 Email
already in use, any other failure 500; success answers 201.  No cache
operation appears on this path. -/
def signup (b : Breaker) (st : Store) (c : Cache) (email password nm : String) :
    Response × Store × Cache :=
  match (match b.state with
         | .Open => Except.error "CircuitOpenError"
         | _ => st.dbCreate email (bcryptHash password) nm) with
  | Except.ok r => ({ status := 201, body := "User created" }, r.2, c)
  | Except.error e =>
    if e == "SequelizeUniqueConstraintError" then
      ({ status := 400, body := "Email already in use" }, st, c)
    else
      ({ status := 500, body := "Internal server error" }, st, c)

/-! ## Cached read route

From src/src/routes/user.routes.js line 25: the per-resource read
route runs cacheRoute(300) in front of getUserById. -/

/-- From user.routes.js line 25: the per-call ttl given to cacheRoute
on the read-by-id route. -/
def userRouteCacheTtl : Nat := 300

/-- Modelled from the spec: cacheMiddleware(ttl) - answer from the
cache on a hit; on a miss run the handler and store a successful
response under the resource id with the per-call ttl. -/
def readUserRoute (b : Breaker) (dbResult : Except String (Option UserRec))
    (c : Cache) (id : Nat) : Response × Cache :=
  match c.get (toString id) with
  | some v => ({ status := 200, body := v }, c)
  | none =>
    let r := getUserById b dbResult (some id)
    if r.status == 200 then
      (r, c.setWithTtl (toString id) r.body (some userRouteCacheTtl))
    else
      (r, c)

/-! ## Theorems -/

/-- A breaker sitting in the Open state (gauge already written by the
open listener). -/
def openBreaker : Breaker :=
  { state := .Open, windowFailures := 1, windowSuccesses := 0, gauge := 0 }

/-- A breaker sitting in the Closed state. -/
def closedBreaker : Breaker :=
  { state := .Closed, windowFailures := 0, windowSuccesses := 0, gauge := 1 }

/-- Claim C1: while the circuit breaker is Open, every fired call fails
immediately with the open-circuit error, the record store action is
never invoked (the wrapped retry executor does not run), and the
breaker is left as it was. -/
theorem open_breaker_rejects_without_invocation (opts : CircuitOptions)
    (b : Breaker) (action : Nat → DbOutcome) (h : b.state = BState.Open) :
    fire opts b action =
      { result := Except.error "CircuitOpenError", invocations := 0, breaker := b } := by
  simp [fire, h]

/-- Witness for C1: the concrete Open breaker rejects a concrete
action without invoking it. -/
theorem open_breaker_rejects_without_invocation_witness :
    fire dbCircuitOptions openBreaker (fun _ => DbOutcome.ok 0) =
      { result := Except.error "CircuitOpenError", invocations := 0, breaker := openBreaker } :=
  open_breaker_rejects_without_invocation dbCircuitOptions openBreaker
    (fun _ => DbOutcome.ok 0) rfl

/-- Claim C2: a failure that is not a connection-class error makes the
retrying executor fail immediately with that error after exactly one
invocation of the action - zero retries are consumed. -/
theorem fatal_error_single_invocation (action : Nat → DbOutcome) (n : String)
    (h0 : action 0 = DbOutcome.err n) (hfatal : isConnectionError n = false) :
    retryRun action dbRetryOptions = (Except.error n, 1) := by
  simp [retryRun, retryGo, dbRetryOptions, h0, hfatal]

/-- An action that always fails with the duplicate-key error name. -/
def constraintViolationAction : Nat → DbOutcome :=
  fun _ => DbOutcome.err "SequelizeUniqueConstraintError"

/-- Witness for C2: a constraint violation is not retried. -/
theorem fatal_error_single_invocation_witness :
    retryRun constraintViolationAction dbRetryOptions =
      (Except.error "SequelizeUniqueConstraintError", 1) :=
  fatal_error_single_invocation constraintViolationAction
    "SequelizeUniqueConstraintError" rfl (by decide)

/-- Claim C3: an action failing with connection-class errors on its
first two invocations and succeeding on the third makes the executor
return the success value after exactly 3 invocations, under the default
budget of 5 retries. -/
theorem connection_errors_retried_to_success (action : Nat → DbOutcome)
    (n0 n1 : String) (v : Nat)
    (h0 : action 0 = DbOutcome.err n0) (hr0 : isConnectionError n0 = true)
    (h1 : action 1 = DbOutcome.err n1) (hr1 : isConnectionError n1 = true)
    (h2 : action 2 = DbOutcome.ok v) :
    retryRun action dbRetryOptions = (Except.ok v, 3) ∧ dbRetryOptions.retries = 5 := by
  refine ⟨?_, rfl⟩
  simp [retryRun, retryGo, dbRetryOptions, h0, h1, h2, hr0, hr1]

/-- An action refusing connection twice and then succeeding. -/
def twoRefusalsAction : Nat → DbOutcome :=
  fun k => if k < 2 then DbOutcome.err "SequelizeConnectionRefusedError" else DbOutcome.ok 7

/-- Witness for C3: two connection refusals then success give the
success value in exactly 3 invocations. -/
theorem connection_errors_retried_to_success_witness :
    retryRun twoRefusalsAction dbRetryOptions = (Except.ok 7, 3) ∧
      dbRetryOptions.retries = 5 :=
  connection_errors_retried_to_success twoRefusalsAction
    "SequelizeConnectionRefusedError" "SequelizeConnectionRefusedError" 7
    (by decide) (by decide) (by decide) (by decide) (by decide)

/-- Claim C7: the state gauge starts at 1 (Closed) when the breaker is
created, and every breaker step leaves the gauge equal to the value of
the state it lands in: 1 for Closed, 0.5 for HalfOpen, 0 for Open. -/
theorem gauge_tracks_breaker_state :
    createDatabaseCircuitBreaker.gauge = stateGaugeValue createDatabaseCircuitBreaker.state ∧
    ∀ (opts : CircuitOptions) (b : Breaker) (i : BreakerInput),
      b.gauge = stateGaugeValue b.state →
      (breakerStep opts b i).gauge = stateGaugeValue (breakerStep opts b i).state := by
  refine ⟨rfl, ?_⟩
  intro opts b i h
  obtain ⟨s, f, su, g⟩ := b
  cases s <;> cases i
  all_goals simp_all [breakerStep, stateGaugeValue]
  all_goals (try split_ifs)
  all_goals rfl

/-- Witness for C7: stepping the fresh breaker with a failed call keeps
the gauge in line with the landed state. -/
theorem gauge_tracks_breaker_state_witness :
    (breakerStep dbCircuitOptions createDatabaseCircuitBreaker
        (BreakerInput.callResult true)).gauge =
      stateGaugeValue (breakerStep dbCircuitOptions createDatabaseCircuitBreaker
        (BreakerInput.callResult true)).state :=
  gauge_tracks_breaker_state.2 dbCircuitOptions createDatabaseCircuitBreaker
    (BreakerInput.callResult true) rfl

/-- A concrete stored user whose password hash is the hash of old. -/
def c4User : UserRec :=
  { id := 1, email := "a@x.com", password := bcryptHash "old", name := "Al" }

/-- A concrete store holding that one user. -/
def c4Store : Store := { mockUsers := [c4User], mockUserId := 2 }

/-- A concrete cache holding the read-route entry for that user. -/
def c4Cache : Cache :=
  { entries := [{ key := serviceNamespace ++ "1",
                  value := "name=Al;email=a@x.com", ttl := 300 }] }

/-- Claim C9: when the supplied old password does not match the stored
hash of an existing user, changePassword answers 400 Invalid
credentials and neither the store nor the cache changes. -/
theorem change_password_invalid_credentials_frame (b : Breaker) (st : Store)
    (c : Cache) (userId : Nat) (oldPassword newPassword : String) (u : UserRec)
    (hb : b.state ≠ BState.Open)
    (hu : st.findByPk userId = some u)
    (hm : bcryptCompare oldPassword u.password = false) :
    changePassword b st c userId oldPassword newPassword =
      ({ status := 400, body := "Invalid credentials" }, st, c) := by
  cases hs : b.state <;> simp_all [changePassword]

/-- Witness for C9: a wrong old password against the concrete store
leaves everything unchanged. -/
theorem change_password_invalid_credentials_frame_witness :
    changePassword closedBreaker c4Store c4Cache 1 "wrong" "new" =
      ({ status := 400, body := "Invalid credentials" }, c4Store, c4Cache) :=
  change_password_invalid_credentials_frame closedBreaker c4Store c4Cache 1
    "wrong" "new" c4User (by decide) (by decide) (by decide)

/-- Claim C10: when no record matches the userId the store reports zero
rows affected and updateUser answers 404 User not found, leaving both
the store and the cache (no invalidation) unchanged. -/
theorem update_missing_user_frame (b : Breaker) (st : Store) (c : Cache)
    (userId : Nat) (nm email : String)
    (hb : b.state ≠ BState.Open)
    (h : st.mockUsers.findIdx? (fun u => u.id == userId) = none) :
    updateUser b st c userId nm email =
      ({ status := 404, body := "User not found" }, st, c) := by
  cases hs : b.state
  · simp [updateUser, Store.update, hs, h]
  · exact absurd hs hb
  · simp [updateUser, Store.update, hs, h]

/-- Witness for C10: updating a missing id in the concrete store. -/
theorem update_missing_user_frame_witness :
    updateUser closedBreaker c4Store c4Cache 9 "B" "b@x.com" =
      ({ status := 404, body := "User not found" }, c4Store, c4Cache) :=
  update_missing_user_frame closedBreaker c4Store c4Cache 9 "B" "b@x.com"
    (by decide) (by decide)

/-- Counterexample to claim C4 as stated: changePassword performs a
successful store mutation (200, the stored record changes) yet issues
no cache invalidation - the stale cache entry for the user survives. -/
theorem change_password_skips_invalidation :
    (changePassword closedBreaker c4Store c4Cache 1 "old" "new").1.status = 200 ∧
    (changePassword closedBreaker c4Store c4Cache 1 "old" "new").2.1 ≠ c4Store ∧
    (changePassword closedBreaker c4Store c4Cache 1 "old" "new").2.2 = c4Cache ∧
    Cache.get c4Cache "1" = some "name=Al;email=a@x.com" := by decide

/-- Claim C4 (amended): no write path ever writes a value into the
cache - updateUser either leaves the cache alone or deletes the key of
the updated user, and deletes it exactly when a row was affected under
a non-open breaker, while changePassword and signup leave the cache
untouched on every path (they perform no invalidation at all). -/
theorem write_paths_never_populate_cache (b : Breaker) (st : Store) (c : Cache)
    (userId : Nat) (nm email oldP newP sEmail sPw sNm : String) :
    ((updateUser b st c userId nm email).2.2 = c ∨
      (updateUser b st c userId nm email).2.2 = c.del (toString userId)) ∧
    (b.state ≠ BState.Open → (st.update nm email userId).1 ≠ 0 →
      (updateUser b st c userId nm email).2.2 = c.del (toString userId)) ∧
    (changePassword b st c userId oldP newP).2.2 = c ∧
    (signup b st c sEmail sPw sNm).2.2 = c := by
  refine ⟨?_, ?_, ?_, ?_⟩
  · rcases hr : st.update nm email userId with ⟨n, st2⟩
    by_cases hn : n = 0
    · cases hs : b.state <;> left <;> simp [updateUser, hs, hr, hn]
    · cases hs : b.state
      · right; simp [updateUser, hs, hr, hn]
      · left; simp [updateUser, hs]
      · right; simp [updateUser, hs, hr, hn]
  · intro hb h1
    rcases hr : st.update nm email userId with ⟨n, st2⟩
    rw [hr] at h1
    simp only [] at h1
    cases hs : b.state <;> simp_all [updateUser]
  · cases hs : b.state <;>
      rcases hu : st.findByPk userId with _ | u <;>
      simp [changePassword, hs, hu] <;>
      (try split) <;> rfl
  · cases hs : b.state <;>
      rcases hd : st.dbCreate sEmail (bcryptHash sPw) sNm with e | r <;>
      simp [signup, hs, hd] <;>
      (try split) <;> rfl

/-- Witness for C4 (amended): a successful profile update deletes the
cached key of the updated user. -/
theorem write_paths_never_populate_cache_witness :
    (updateUser closedBreaker c4Store c4Cache 1 "B" "b@x.com").2.2 =
      Cache.del c4Cache (toString 1) :=
  (write_paths_never_populate_cache closedBreaker c4Store c4Cache 1
      "B" "b@x.com" "o" "n" "e" "p" "m").2.1 (by decide) (by decide)

/-- Claim C5: a signup with a fresh email succeeds (201); when the
store already holds the email, create fails with the duplicate-key
classification, signup answers 400 Email already in use with the store
unchanged, and that error name is fatal for the retry executor - the
action runs exactly once, never retried. -/
theorem duplicate_email_signup (b : Breaker) (st : Store) (c : Cache)
    (email pw nm : String) (hb : b.state ≠ BState.Open) :
    (st.mockUsers.any (fun u => u.email == email) = false →
      (signup b st c email pw nm).1 = { status := 201, body := "User created" }) ∧
    (st.mockUsers.any (fun u => u.email == email) = true →
      (signup b st c email pw nm).1 = { status := 400, body := "Email already in use" } ∧
      (signup b st c email pw nm).2.1 = st) ∧
    isConnectionError "SequelizeUniqueConstraintError" = false ∧
    retryRun constraintViolationAction dbRetryOptions =
      (Except.error "SequelizeUniqueConstraintError", 1) := by
  refine ⟨?_, ?_, by decide, by decide⟩
  · intro h
    cases hs : b.state
    · simp [signup, Store.dbCreate, hs, h]
    · exact absurd hs hb
    · simp [signup, Store.dbCreate, hs, h]
  · intro h
    cases hs : b.state
    · simp [signup, Store.dbCreate, hs, h]
    · exact absurd hs hb
    · simp [signup, Store.dbCreate, hs, h]

/-- Witness for C5: a second signup with the already-stored email fails
with the conflict answer and leaves the store unchanged. -/
theorem duplicate_email_signup_witness :
    (signup closedBreaker c4Store c4Cache "a@x.com" "pw2" "Bo").1 =
        { status := 400, body := "Email already in use" } ∧
      (signup closedBreaker c4Store c4Cache "a@x.com" "pw2" "Bo").2.1 = c4Store :=
  (duplicate_email_signup closedBreaker c4Store c4Cache "a@x.com" "pw2" "Bo"
      (by decide)).2.1 (by decide)

/-- Counterexample to claim C6 as stated: an open-circuit failure of
the read produces byte-for-byte the same 500 Internal server error
response as an internal store failure, so the caller cannot
distinguish the open-circuit category from the internal one. -/
theorem open_circuit_indistinguishable_from_internal :
    getUserById openBreaker (Except.ok (some c4User)) (some 1) =
        { status := 500, body := "Internal server error" } ∧
      getUserById closedBreaker (Except.error "SomeOtherError") (some 1) =
        { status := 500, body := "Internal server error" } := by decide

/-- Claim C6 (amended): callers can distinguish not-found (404),
conflict (400 Email already in use) and internal error (500); an
open-circuit failure, however, surfaces as the same 500 Internal
server error response as an internal failure. -/
theorem failure_categories (dbErr : String) (u : UserRec) (id : Nat)
    (b : Breaker) (st : Store) (c : Cache) (email pw nm : String)
    (hb : b.state ≠ BState.Open)
    (hdup : st.mockUsers.any (fun v => v.email == email) = true) :
    getUserById closedBreaker (Except.ok none) (some id) =
        { status := 404, body := "User not found" } ∧
      (signup b st c email pw nm).1 =
        { status := 400, body := "Email already in use" } ∧
      getUserById closedBreaker (Except.error dbErr) (some id) =
        { status := 500, body := "Internal server error" } ∧
      getUserById openBreaker (Except.ok (some u)) (some id) =
        { status := 500, body := "Internal server error" } := by
  refine ⟨by simp [getUserById, closedBreaker], ?_, by simp [getUserById, closedBreaker], by simp [getUserById, openBreaker]⟩
  cases hs : b.state <;> simp_all [signup, Store.dbCreate]

/-- Witness for C6 (amended): the four responses at concrete inputs. -/
theorem failure_categories_witness :
    getUserById closedBreaker (Except.ok none) (some 1) =
        { status := 404, body := "User not found" } ∧
      (signup closedBreaker c4Store c4Cache "a@x.com" "p" "N").1 =
        { status := 400, body := "Email already in use" } ∧
      getUserById closedBreaker (Except.error "SomeOtherError") (some 1) =
        { status := 500, body := "Internal server error" } ∧
      getUserById openBreaker (Except.ok (some c4User)) (some 1) =
        { status := 500, body := "Internal server error" } :=
  failure_categories "SomeOtherError" c4User 1 closedBreaker c4Store c4Cache
    "a@x.com" "p" "N" (by decide) (by decide)

/-- Claim C8: a read-route miss stores the response under the
namespaced resource key with the per-call ttl 300, while a set with no
per-call ttl stores under the default 3600; the namespace is the fixed
service string. -/
theorem read_route_cache_ttl :
    (∀ (b : Breaker) (c : Cache) (id : Nat) (u : UserRec),
      Cache.get c (toString id) = none → b.state ≠ BState.Open →
      (readUserRoute b (Except.ok (some u)) c id).2.entries.head? =
        some { key := serviceNamespace ++ toString id,
               value := "name=" ++ u.name ++ ";email=" ++ u.email,
               ttl := userRouteCacheTtl }) ∧
    userRouteCacheTtl = 300 ∧
    (∀ (c : Cache) (k v : String),
      (Cache.setWithTtl c k v none).entries.head? =
        some { key := serviceNamespace ++ k, value := v, ttl := defaultCacheTtl }) ∧
    defaultCacheTtl = 3600 ∧ serviceNamespace = "user-service:" := by
  refine ⟨?_, rfl, ?_, rfl, rfl⟩
  · intro b c id u hmiss hb
    cases hs : b.state <;>
      simp_all [readUserRoute, getUserById, Cache.setWithTtl, userRouteCacheTtl]
  · intro c k v
    simp [Cache.setWithTtl]

/-- Witness for C8: a miss on the empty cache stores the concrete
response with ttl 300 under the namespaced id. -/
theorem read_route_cache_ttl_witness :
    (readUserRoute closedBreaker (Except.ok (some c4User)) { entries := [] } 1).2.entries.head? =
      some { key := serviceNamespace ++ toString 1,
             value := "name=" ++ c4User.name ++ ";email=" ++ c4User.email,
             ttl := userRouteCacheTtl } :=
  read_route_cache_ttl.1 closedBreaker { entries := [] } 1 c4User rfl (by decide)

end CinerateUserService
